import Mathlib

/-!
# Verification of the stock-forecasting dashboard script

Shallow embedding of `app.py`: a single linear pipeline
(load → filter → select → split → fit → score → forecast → plot).
Dataframes are lists of rows; numeric cells are exact rationals;
fallible pandas/sklearn/statsmodels operations return `Except`;
the tree-ensemble regressor and the seasonal decomposition are
library black boxes, modelled as an explicit `RegressorImpl`
parameter (a pure function of the seed and the training data, which
is what a seeded sklearn regressor is).
-/

namespace StockApp

/-- One row of the loaded table: an index (the date order key used by
`sort_index`), the `name` column, and the numeric cells keyed by column
name. -/
structure Row where
  idx : Nat
  name : String
  cells : List (String × ℚ)
deriving DecidableEq, Repr

/-- A dataframe: the column list (pandas checks column selection against
it) and the rows. -/
structure DataFrame where
  cols : List String
  rows : List Row
deriving DecidableEq, Repr

/-- All columns the script reads from the loaded table. -/
def requiredColumns : List String :=
  ["name", "open", "high", "low", "volume", "EMA_10", "MACD", "ATR_14",
   "Williams_%R", "close"]

/-- `features` list of `app.py` line 35. -/
def features : List String :=
  ["open", "high", "low", "volume", "EMA_10", "MACD", "ATR_14", "Williams_%R"]

/-- `target` of `app.py` line 36. -/
def target : String := "close"

/-- Read one numeric cell of a row (a well-formed frame has a cell for
every listed column; the default is never reached through `selectCols`
on a well-formed frame). -/
def getCellD (r : Row) (c : String) : ℚ := (r.cells.lookup c).getD 0

/-- `data['name']`: raises `KeyError` when the column is absent. -/
def getNames (df : DataFrame) : Except String (List String) :=
  if df.cols.contains "name" then .ok (df.rows.map Row.name)
  else .error "KeyError: name"

/-- `value_counts()` on a column: each distinct value with its number of
occurrences. -/
def valueCounts (ns : List String) : List (String × Nat) :=
  ns.dedup.map (fun n => (n, ns.count n))

/-- `company_counts[company_counts >= 180].index.tolist()` (line 22). -/
def validCompanies (ns : List String) : List String :=
  ((valueCounts ns).filter (fun p => 180 ≤ p.2)).map Prod.fst

/-- `data[data['name'].isin(valid_companies)]` (line 24). -/
def filterByNames (df : DataFrame) (valid : List String) : DataFrame :=
  { df with rows := df.rows.filter (fun r => valid.contains r.name) }

/-- `company_data.sort_index()` (line 32): a stable sort on the index,
as pandas performs. -/
def sortByIdx (l : List Row) : List Row :=
  l.insertionSort (fun a b => a.idx ≤ b.idx)

/-- The per-company frame: rows of the filtered data with the selected
name, in index order (lines 31–32). -/
def companyData (df : DataFrame) (selected : String) : List Row :=
  sortByIdx
    ((filterByNames df (validCompanies (df.rows.map Row.name))).rows.filter
      (fun r => r.name == selected))

/-- `company_data[features]` (line 39): `KeyError` when a requested
column is not in the frame, else the feature matrix row by row. -/
def selectCols (cols : List String) (rs : List Row) (cs : List String) :
    Except String (List (List ℚ)) :=
  match cs.find? (fun c => !cols.contains c) with
  | some c => .error ("KeyError: " ++ c)
  | none => .ok (rs.map (fun r => cs.map (fun c => getCellD r c)))

/-- `company_data[target]` (line 40). -/
def selectCol (cols : List String) (rs : List Row) (c : String) :
    Except String (List ℚ) :=
  if cols.contains c then .ok (rs.map (fun r => getCellD r c))
  else .error ("KeyError: " ++ c)

/-- sklearn's test-set size for `test_size=0.2`: `ceil(n / 5)`. -/
def nTestOf (n : Nat) : Nat := (n + 4) / 5

/-- `train_test_split(·, test_size=0.2, shuffle=False)` (line 43): the
first `n - ceil(n/5)` entries in order, then the rest in order. -/
def train_test_split (l : List α) : List α × List α :=
  (l.take (l.length - nTestOf l.length), l.drop (l.length - nTestOf l.length))

/-- The same split with sklearn's guard: `ValueError` when either side
of the split would be empty. -/
def train_test_splitChecked (l : List α) :
    Except String (List α × List α) :=
  if l.length - nTestOf l.length = 0 ∨ nTestOf l.length = 0 then
    .error "ValueError: resulting train set will be empty"
  else .ok (train_test_split l)

/-- The two options of the `st.radio` control (line 46); the widget can
return nothing else. -/
inductive ModelChoice
  | extraTrees
  | randomForest
deriving DecidableEq, Repr

/-- Which sklearn regressor class was constructed. -/
inductive ModelKind
  | extraTreesRegressor
  | randomForestRegressor
deriving DecidableEq, Repr

/-- A constructed regressor: its class and its constructor arguments. -/
structure Model where
  kind : ModelKind
  n_estimators : Nat
  random_state : Nat
deriving DecidableEq, Repr

/-- How sklearn seeds a regressor: an explicit `random_state` argument
wins; without one the ambient global random state would be drawn. -/
def drawSeed (explicitSeed : Option Nat) (ambientRng : Nat) : Nat :=
  explicitSeed.getD ambientRng

/-- Lines 48–51: both branches pass `n_estimators=100, random_state=42`
explicitly, so the ambient random state is never consulted. -/
def mkModel (choice : ModelChoice) (ambientRng : Nat) : Model :=
  match choice with
  | .extraTrees => ⟨.extraTreesRegressor, 100, drawSeed (some 42) ambientRng⟩
  | .randomForest => ⟨.randomForestRegressor, 100, drawSeed (some 42) ambientRng⟩

/-- The library black boxes: a seeded ensemble regressor is a pure
function of its class, constructor arguments, and training data,
applied to an evaluation matrix (one prediction per evaluation row, as
sklearn guarantees); `trendOf`/`seasonalOf` are the decomposition
components statsmodels computes. -/
structure RegressorImpl where
  fitPredict : ModelKind → Nat → Nat → List (List ℚ) → List ℚ →
    List (List ℚ) → List ℚ
  trendOf : List ℚ → List ℚ
  seasonalOf : List ℚ → List ℚ
  len_fitPredict : ∀ k ne rs Xtr ytr Xev,
    (fitPredict k ne rs Xtr ytr Xev).length = Xev.length

/-- `seasonal_decompose(·, period=30, ...)` (line 101): statsmodels
raises `ValueError` unless the series has two complete cycles. -/
def seasonal_decompose (impl : RegressorImpl) (series : List ℚ)
    (period : Nat) : Except String (List ℚ × List ℚ) :=
  if series.length < 2 * period then
    .error "ValueError: x must have 2 complete cycles"
  else .ok (impl.trendOf series, impl.seasonalOf series)

/-- `np.mean` of a list (sum over length). -/
def listMean (l : List ℚ) : ℚ := l.sum / l.length

/-- `mean_absolute_error` (line 58). -/
def mean_absolute_error (yt yp : List ℚ) : ℚ :=
  listMean ((yt.zip yp).map (fun p => |p.1 - p.2|))

/-- `mean_squared_error` (line 59). -/
def mean_squared_error (yt yp : List ℚ) : ℚ :=
  listMean ((yt.zip yp).map (fun p => (p.1 - p.2) ^ 2))

/-- `r2_score` (line 61). -/
def r2_score (yt yp : List ℚ) : ℚ :=
  1 - ((yt.zip yp).map (fun p => (p.1 - p.2) ^ 2)).sum /
    (yt.map (fun v => (v - listMean yt) ^ 2)).sum

/-- IEEE round-half-to-even on an exact rational, as `np.round` uses. -/
def roundHalfEven (q : ℚ) : ℤ :=
  let f : ℤ := ⌊q⌋
  if q - f < 1 / 2 then f
  else if (1 : ℚ) / 2 < q - f then f + 1
  else if Even f then f else f + 1

/-- `np.round(·, 2)` (line 74). -/
def np_round2 (q : ℚ) : ℚ := (roundHalfEven (q * 100) : ℚ) / 100

/-- `iloc[-k:]`: the last `k` entries (all of them when fewer than `k`
exist). -/
def ilocLast (k : Nat) (l : List α) : List α := l.drop (l.length - k)

/-- `pd.DataFrame({"Day": ..., "Forecasted Close": ...})` (line 77):
pandas raises `ValueError` when the column arrays differ in length. -/
def mkForecastFrame (days : List Nat) (vals : List ℚ) :
    Except String (List (Nat × ℚ)) :=
  if days.length = vals.length then .ok (days.zip vals)
  else .error "ValueError: All arrays must be of the same length"

/-- The five figures the script pushes through `st.plotly_chart`. -/
inductive ChartKind
  | candlestick
  | forecastPlot
  | seasonal
  | financialMetrics
  | movingAverages
deriving DecidableEq, Repr

/-- A value shown by `st.metric`: either an exact rational, or the real
square root of one (the RMSE is displayed as `np.sqrt(mse)`). -/
inductive MetricVal
  | rat (q : ℚ)
  | sqrtRat (q : ℚ)
deriving DecidableEq, Repr

/-- One item rendered to the page, in order. -/
inductive RenderItem
  | title (s : String)
  | subheader (s : String)
  | metric (label : String) (value : MetricVal)
  | dataTable (tbl : List (Nat × ℚ))
  | chart (k : ChartKind)
deriving DecidableEq, Repr

/-- The charts among the rendered items, in render order. -/
def chartsOf (rs : List RenderItem) : List ChartKind :=
  rs.filterMap (fun i => match i with | .chart k => some k | _ => none)

/-- The `st.metric` widgets among the rendered items, in render order. -/
def metricsOf (rs : List RenderItem) : List (String × MetricVal) :=
  rs.filterMap (fun i => match i with
    | .metric l v => some (l, v)
    | _ => none)

/-- Everything one run computes and shows. -/
structure Output where
  modelUsed : Model
  y_test : List ℚ
  y_pred : List ℚ
  mae : ℚ
  mse : ℚ
  r2 : ℚ
  accuracy : ℚ
  forecastTable : List (Nat × ℚ)
  renders : List RenderItem
deriving DecidableEq, Repr

/-- `close.rolling(window=w).mean()` (lines 117–118): `NaN` (here
`none`) until a full window is available. -/
def rollingMean (w : Nat) (l : List ℚ) : List (Option ℚ) :=
  (List.range l.length).map (fun i =>
    if i + 1 < w then none
    else some (listMean ((l.take (i + 1)).drop (i + 1 - w))))

/-- Check a set of columns before building a figure from them
(pandas raises `KeyError` on the first absent one). -/
def requireCols (cols : List String) (needed : List String) :
    Except String Unit :=
  match needed.find? (fun c => !cols.contains c) with
  | some c => .error ("KeyError: " ++ c)
  | none => .ok ()

/-- The pipeline after the load, lines 20–123 of `app.py`, as one
function of the library implementation, the ambient random state, the
loaded frame, and the two widget values. Errors short-circuit exactly
where the corresponding library call would raise. -/
def runLoaded (impl : RegressorImpl) (ambientRng : Nat) (df : DataFrame)
    (selected : String) (choice : ModelChoice) : Except String Output :=
  match getNames df with
  | .error e => .error e
  | .ok _names =>
    let cdata := companyData df selected
    match selectCols df.cols cdata features with
    | .error e => .error e
    | .ok X =>
      match selectCol df.cols cdata target with
      | .error e => .error e
      | .ok y =>
        match train_test_splitChecked X, train_test_splitChecked y with
        | .error e, _ => .error e
        | .ok _, .error e => .error e
        | .ok (X_train, X_test), .ok (y_train, y_test) =>
          let model := mkModel choice ambientRng
          let y_pred := impl.fitPredict model.kind model.n_estimators
            model.random_state X_train y_train X_test
          let mae := mean_absolute_error y_test y_pred
          let mse := mean_squared_error y_test y_pred
          let r2 := r2_score y_test y_pred
          let accuracy := 1 - mae / listMean y_test
          let future_X := ilocLast 15 X_test
          let future_forecast := (impl.fitPredict model.kind
            model.n_estimators model.random_state X_train y_train
            future_X).map np_round2
          match mkForecastFrame (List.range' 1 15) future_forecast with
          | .error e => .error e
          | .ok forecastTable =>
            match requireCols df.cols ["open", "high", "low", "close"] with
            | .error e => .error e
            | .ok _ =>
              match seasonal_decompose impl y 30 with
              | .error e => .error e
              | .ok _decomp =>
                match requireCols df.cols ["EMA_10", "MACD", "ATR_14"] with
                | .error e => .error e
                | .ok _ =>
                  let _sma50 := rollingMean 50 y
                  let _sma200 := rollingMean 200 y
                  .ok
                    { modelUsed := model
                      y_test := y_test
                      y_pred := y_pred
                      mae := mae
                      mse := mse
                      r2 := r2
                      accuracy := accuracy
                      forecastTable := forecastTable
                      renders :=
                        [.title "Stock Price Forecasting (Extra Trees & Random Forest)",
                         .subheader "Model Performance",
                         .metric "Mean Absolute Error (MAE)" (.rat mae),
                         .metric "Root Mean Squared Error (RMSE)" (.sqrtRat mse),
                         .metric "R² Score" (.rat r2),
                         .metric "Estimated Accuracy" (.rat accuracy),
                         .subheader "15-Day Forecast",
                         .dataTable forecastTable,
                         .subheader "Candlestick Chart",
                         .chart .candlestick,
                         .subheader "Forecasted Prices",
                         .chart .forecastPlot,
                         .subheader "Seasonal Trends",
                         .chart .seasonal,
                         .subheader "Financial Metrics",
                         .chart .financialMetrics,
                         .subheader "Moving Averages",
                         .chart .movingAverages] }

/-- The file system the script runs against, with logs of the paths it
read and wrote. -/
structure FSState where
  files : List (String × DataFrame)
  reads : List String
  writes : List String
deriving Repr

/-- `pd.read_parquet` (line 15): a read-only access that logs the path
and raises `FileNotFoundError` on an absent file. -/
def read_parquet (path : String) (s : FSState) :
    Except String DataFrame × FSState :=
  match s.files.lookup path with
  | some df => (.ok df, { s with reads := s.reads ++ [path] })
  | none => (.error ("FileNotFoundError: " ++ path),
      { s with reads := s.reads ++ [path] })

/-- A write primitive (what `joblib.dump` or `to_parquet` would do);
`joblib` is imported by the script but never called. -/
def joblib_dump (path : String) (df : DataFrame) (s : FSState) : FSState :=
  { s with files := (path, df) :: s.files, writes := s.writes ++ [path] }

/-- `load_data` (lines 14–16). -/
def load_data (s : FSState) : Except String DataFrame × FSState :=
  read_parquet "data.parquet" s

/-- A full run of `app.py`: load the file, then the pipeline; returns
the outcome together with the final file-system state. -/
def runApp (impl : RegressorImpl) (ambientRng : Nat)
    (files : List (String × DataFrame)) (selected : String)
    (choice : ModelChoice) : Except String Output × FSState :=
  match load_data ⟨files, [], []⟩ with
  | (.ok df, s1) => (runLoaded impl ambientRng df selected choice, s1)
  | (.error e, s1) => (.error e, s1)

/-- The feature matrix `X` of the selected company (line 39's value,
once the column check passed). -/
def featureMatrix (df : DataFrame) (selected : String) : List (List ℚ) :=
  (companyData df selected).map (fun r => features.map (fun c => getCellD r c))

/-- The target vector `y` of the selected company (line 40's value). -/
def targetVector (df : DataFrame) (selected : String) : List ℚ :=
  (companyData df selected).map (fun r => getCellD r target)

/-- The output of one successful run, written without the library
guards: `runLoaded` returns exactly this when every guard passes. -/
def runPure (impl : RegressorImpl) (ambientRng : Nat) (df : DataFrame)
    (selected : String) (choice : ModelChoice) : Output :=
  let X := featureMatrix df selected
  let y := targetVector df selected
  let X_train := (train_test_split X).1
  let X_test := (train_test_split X).2
  let y_train := (train_test_split y).1
  let y_test := (train_test_split y).2
  let model := mkModel choice ambientRng
  let y_pred := impl.fitPredict model.kind model.n_estimators
    model.random_state X_train y_train X_test
  let mae := mean_absolute_error y_test y_pred
  let mse := mean_squared_error y_test y_pred
  let r2 := r2_score y_test y_pred
  let accuracy := 1 - mae / listMean y_test
  let future_forecast := (impl.fitPredict model.kind model.n_estimators
    model.random_state X_train y_train (ilocLast 15 X_test)).map np_round2
  let forecastTable := (List.range' 1 15).zip future_forecast
  { modelUsed := model
    y_test := y_test
    y_pred := y_pred
    mae := mae
    mse := mse
    r2 := r2
    accuracy := accuracy
    forecastTable := forecastTable
    renders :=
      [.title "Stock Price Forecasting (Extra Trees & Random Forest)",
       .subheader "Model Performance",
       .metric "Mean Absolute Error (MAE)" (.rat mae),
       .metric "Root Mean Squared Error (RMSE)" (.sqrtRat mse),
       .metric "R² Score" (.rat r2),
       .metric "Estimated Accuracy" (.rat accuracy),
       .subheader "15-Day Forecast",
       .dataTable forecastTable,
       .subheader "Candlestick Chart",
       .chart .candlestick,
       .subheader "Forecasted Prices",
       .chart .forecastPlot,
       .subheader "Seasonal Trends",
       .chart .seasonal,
       .subheader "Financial Metrics",
       .chart .financialMetrics,
       .subheader "Moving Averages",
       .chart .movingAverages] }

/-- Cells of the concrete exercise rows: every required numeric column
is present. -/
def sampleCells : List (String × ℚ) :=
  [("open", 10), ("high", 12), ("low", 9), ("volume", 1000),
   ("EMA_10", 10), ("MACD", 1), ("ATR_14", 2), ("Williams_%R", -50),
   ("close", 10)]

/-- A concrete dataset: 180 rows of one company (selectable) and 10
rows of another (filtered out), used to exercise the theorems on an
actual input. -/
def sampleDF : DataFrame :=
  ⟨requiredColumns,
    (List.range 180).map (fun i => ⟨i, "ACME", sampleCells⟩) ++
      (List.range 10).map (fun i => ⟨180 + i, "SMALL", sampleCells⟩)⟩

/-- A dataset whose table lacks the `close` column. -/
def sampleBadDF : DataFrame :=
  ⟨["name", "open", "high", "low", "volume", "EMA_10", "MACD", "ATR_14",
    "Williams_%R"],
   (List.range 180).map (fun i => ⟨i, "ACME", sampleCells⟩)⟩

/-- A concrete stand-in for the sklearn/statsmodels black boxes: the
constant-zero regressor and identity decomposition components. -/
def trivialImpl : RegressorImpl where
  fitPredict := fun _ _ _ _ _ Xev => Xev.map (fun _ => 0)
  trendOf := id
  seasonalOf := id
  len_fitPredict := by
    intro k ne rs Xtr ytr Xev
    exact List.length_map ..

/-! ## Helper lemmas -/

/-- A name is in `valid_companies` exactly when it occurs at least 180
times in the `name` column. -/
theorem mem_validCompanies {ns : List String} {n : String} :
    n ∈ validCompanies ns ↔ 180 ≤ ns.count n := by
  simp only [validCompanies, valueCounts, List.map_map, List.mem_map,
    List.mem_filter, List.mem_dedup, Function.comp, decide_eq_true_eq]
  constructor
  · rintro ⟨⟨m, cnt⟩, ⟨⟨m', hm', hmk⟩, h180⟩, rfl⟩
    obtain ⟨rfl, rfl⟩ := Prod.mk.injEq .. ▸ hmk
    exact h180
  · intro h
    exact ⟨(n, ns.count n),
      ⟨⟨n, List.count_pos_iff.mp (by omega), rfl⟩, h⟩, rfl⟩

/-- Occurrences in the `name` column count the rows carrying that
name. -/
theorem count_names (rows : List Row) (n : String) :
    (rows.map Row.name).count n =
      (rows.filter (fun r => r.name == n)).length := by
  rw [List.count_eq_countP, List.countP_map, List.countP_eq_length_filter]
  rfl

/-- For a selectable company, restricting the pre-filtered data to the
company gives the same rows as restricting the raw data. -/
theorem filter_company (df : DataFrame) (selected : String)
    (h : selected ∈ validCompanies (df.rows.map Row.name)) :
    (filterByNames df (validCompanies (df.rows.map Row.name))).rows.filter
        (fun r => r.name == selected) =
      df.rows.filter (fun r => r.name == selected) := by
  unfold filterByNames
  rw [List.filter_filter]
  apply List.filter_congr
  intro r _
  by_cases hr : r.name = selected
  · subst hr
    simp [List.elem_iff, h]
  · simp [hr]

/-- The per-company frame has exactly as many rows as the raw data has
rows with the selected name, once the company is selectable. -/
theorem length_companyData (df : DataFrame) (selected : String)
    (h : selected ∈ validCompanies (df.rows.map Row.name)) :
    (companyData df selected).length =
      (df.rows.map Row.name).count selected := by
  unfold companyData sortByIdx
  rw [List.length_insertionSort, filter_company df selected h, count_names]

/-- The sklearn guard passes on any sequence of at least two samples. -/
theorem train_test_splitChecked_ok (l : List α) (h : 2 ≤ l.length) :
    train_test_splitChecked l =
      .ok ((train_test_split l).1, (train_test_split l).2) := by
  unfold train_test_splitChecked nTestOf
  rw [if_neg (by omega)]

/-- Every feature named in `features` is a required column. -/
theorem features_subset : ∀ c ∈ features, c ∈ requiredColumns := by decide

/-- The columns each figure reads are required columns. -/
theorem chartCols_subset :
    (∀ c ∈ ["open", "high", "low", "close"], c ∈ requiredColumns) ∧
    (∀ c ∈ ["EMA_10", "MACD", "ATR_14"], c ∈ requiredColumns) := by decide

/-- When every required column is present, a column check over a subset
of the required columns finds nothing missing. -/
theorem find?_missing_none (df : DataFrame)
    (hcols : ∀ c ∈ requiredColumns, df.cols.contains c = true)
    (needed : List String) (hsub : ∀ c ∈ needed, c ∈ requiredColumns) :
    needed.find? (fun c => !df.cols.contains c) = none :=
  List.find?_eq_none.mpr (fun c hc => by simpa using hcols c (hsub c hc))

/-- When every required column is present and the selected company is
selectable, the run succeeds and returns exactly the guard-free
computation `runPure`. -/
theorem runLoaded_eq (impl : RegressorImpl) (ambientRng : Nat)
    (df : DataFrame) (selected : String) (choice : ModelChoice)
    (hcols : ∀ c ∈ requiredColumns, df.cols.contains c = true)
    (hsel : selected ∈ validCompanies (df.rows.map Row.name)) :
    runLoaded impl ambientRng df selected choice =
      .ok (runPure impl ambientRng df selected choice) := by
  have hlen : 180 ≤ (companyData df selected).length := by
    rw [length_companyData df selected hsel]
    exact mem_validCompanies.mp hsel
  have hlenX : (featureMatrix df selected).length =
      (companyData df selected).length := List.length_map ..
  have hlenY : (targetVector df selected).length =
      (companyData df selected).length := List.length_map ..
  have hnames : getNames df = .ok (df.rows.map Row.name) := by
    unfold getNames
    rw [if_pos (hcols "name" (by decide))]
  have hX : selectCols df.cols (companyData df selected) features =
      .ok (featureMatrix df selected) := by
    unfold selectCols
    rw [find?_missing_none df hcols features features_subset]
    rfl
  have hy : selectCol df.cols (companyData df selected) target =
      .ok (targetVector df selected) := by
    have h : "close" ∈ df.cols := by simpa using hcols "close" (by decide)
    simp [selectCol, target, h, targetVector]
  have hsplX : train_test_splitChecked (featureMatrix df selected) =
      .ok ((train_test_split (featureMatrix df selected)).1,
           (train_test_split (featureMatrix df selected)).2) :=
    train_test_splitChecked_ok _ (by omega)
  have hsplY : train_test_splitChecked (targetVector df selected) =
      .ok ((train_test_split (targetVector df selected)).1,
           (train_test_split (targetVector df selected)).2) :=
    train_test_splitChecked_ok _ (by omega)
  have hlenTest : 15 ≤ (train_test_split (featureMatrix df selected)).2.length := by
    unfold train_test_split nTestOf
    rw [List.length_drop]
    omega
  have hfflen : ∀ Xtr ytr,
      ((impl.fitPredict (mkModel choice ambientRng).kind
        (mkModel choice ambientRng).n_estimators
        (mkModel choice ambientRng).random_state Xtr ytr
        (ilocLast 15 (train_test_split (featureMatrix df selected)).2)).map
          np_round2).length = 15 := by
    intro Xtr ytr
    rw [List.length_map, impl.len_fitPredict]
    unfold ilocLast
    rw [List.length_drop]
    omega
  have hforecast : ∀ Xtr ytr,
      mkForecastFrame (List.range' 1 15)
        ((impl.fitPredict (mkModel choice ambientRng).kind
          (mkModel choice ambientRng).n_estimators
          (mkModel choice ambientRng).random_state Xtr ytr
          (ilocLast 15 (train_test_split (featureMatrix df selected)).2)).map
            np_round2) =
      .ok ((List.range' 1 15).zip
        ((impl.fitPredict (mkModel choice ambientRng).kind
          (mkModel choice ambientRng).n_estimators
          (mkModel choice ambientRng).random_state Xtr ytr
          (ilocLast 15 (train_test_split (featureMatrix df selected)).2)).map
            np_round2)) := by
    intro Xtr ytr
    unfold mkForecastFrame
    rw [if_pos (by rw [List.length_range', hfflen Xtr ytr])]
  have hdecomp : seasonal_decompose impl (targetVector df selected) 30 =
      .ok (impl.trendOf (targetVector df selected),
           impl.seasonalOf (targetVector df selected)) := by
    unfold seasonal_decompose
    rw [if_neg (by omega)]
  have hreq1 : requireCols df.cols ["open", "high", "low", "close"] = .ok () := by
    unfold requireCols
    rw [find?_missing_none df hcols _ chartCols_subset.1]
  have hreq2 : requireCols df.cols ["EMA_10", "MACD", "ATR_14"] = .ok () := by
    unfold requireCols
    rw [find?_missing_none df hcols _ chartCols_subset.2]
  simp only [runLoaded, hnames, hX, hy, hsplX, hsplY, hforecast, hdecomp,
    hreq1, hreq2, runPure]

/-- Sizes of the split pieces for a selectable company: the test part
of the feature matrix and of the target vector has `⌈n/5⌉ ≥ 36`
entries, so the 15-row tail slice is full. -/
theorem split_lengths (df : DataFrame) (selected : String)
    (h : 180 ≤ (companyData df selected).length) :
    36 ≤ (train_test_split (featureMatrix df selected)).2.length ∧
    36 ≤ (train_test_split (targetVector df selected)).2.length ∧
    (ilocLast 15 (train_test_split (featureMatrix df selected)).2).length = 15 := by
  have hX : (featureMatrix df selected).length =
      (companyData df selected).length := List.length_map ..
  have hY : (targetVector df selected).length =
      (companyData df selected).length := List.length_map ..
  unfold train_test_split nTestOf ilocLast
  simp only [List.length_drop]
  omega

/-- The mean squared error of the embedding is nonnegative. -/
theorem mean_squared_error_nonneg (yt yp : List ℚ) :
    0 ≤ mean_squared_error yt yp := by
  unfold mean_squared_error listMean
  apply div_nonneg
  · apply List.sum_nonneg
    intro x hx
    simp only [List.mem_map] at hx
    obtain ⟨p, _, rfl⟩ := hx
    positivity
  · exact_mod_cast Nat.zero_le _

/-- Every required column is the name column, a feature, or the
target. -/
theorem requiredColumns_cases :
    ∀ c ∈ requiredColumns, c = "name" ∨ c ∈ features ∨ c = "close" := by
  decide

/-! ## Claims -/

/-- C1: For every selected company the train/test split is
chronological and 80/20: `train_test_split(..., shuffle=False)` on the
company frame returns as training set exactly the first
`n - ⌈n/5⌉` rows in order and as test set exactly the remaining last
`⌈n/5⌉` rows in order (exactly 80% and 20% whenever 5 divides `n`),
and concatenating train then test recovers the original row sequence,
so no row is shuffled, dropped, or duplicated. -/
theorem C1_chronological_split (df : DataFrame) (selected : String)
    (hsel : selected ∈ validCompanies (df.rows.map Row.name)) :
    ∃ tr te : List Row,
      train_test_splitChecked (companyData df selected) = .ok (tr, te) ∧
      tr = (companyData df selected).take
        ((companyData df selected).length -
          nTestOf (companyData df selected).length) ∧
      te = (companyData df selected).drop
        ((companyData df selected).length -
          nTestOf (companyData df selected).length) ∧
      tr ++ te = companyData df selected ∧
      (companyData df selected).length ≤ 5 * te.length ∧
      5 * te.length ≤ (companyData df selected).length + 4 ∧
      ((companyData df selected).length % 5 = 0 →
        5 * tr.length = 4 * (companyData df selected).length ∧
        5 * te.length = (companyData df selected).length) := by
  have hlen : 180 ≤ (companyData df selected).length := by
    rw [length_companyData df selected hsel]
    exact mem_validCompanies.mp hsel
  refine ⟨_, _, train_test_splitChecked_ok _ (by omega), rfl, rfl,
    List.take_append_drop .., ?_, ?_, ?_⟩ <;>
    simp only [train_test_split, List.length_drop, List.length_take,
      nTestOf] <;>
    omega

set_option maxRecDepth 100000 in
/-- Witness for C1 at the concrete 190-row dataset. -/
theorem C1_witness :
    "ACME" ∈ validCompanies (sampleDF.rows.map Row.name) ∧
    ∃ tr te : List Row,
      train_test_splitChecked (companyData sampleDF "ACME") = .ok (tr, te) ∧
      tr ++ te = companyData sampleDF "ACME" := by
  refine ⟨by decide, ?_⟩
  obtain ⟨tr, te, h1, _, _, h4, _⟩ :=
    C1_chronological_split sampleDF "ACME" (by decide)
  exact ⟨tr, te, h1, h4⟩

/-- C2: A name is selectable iff at least 180 rows of the loaded data
carry it; the filtered working data consists exactly of the rows whose
name is in `valid_companies`, equivalently of the rows of the loaded
data whose name occurs at least 180 times. -/
theorem C2_selectable_filter (df : DataFrame) (n : String) (r : Row) :
    (n ∈ validCompanies (df.rows.map Row.name) ↔
      180 ≤ (df.rows.filter (fun x => x.name == n)).length) ∧
    ((filterByNames df (validCompanies (df.rows.map Row.name))).rows =
      df.rows.filter (fun x =>
        (validCompanies (df.rows.map Row.name)).contains x.name)) ∧
    (r ∈ (filterByNames df (validCompanies (df.rows.map Row.name))).rows ↔
      r ∈ df.rows ∧
        180 ≤ (df.rows.filter (fun x => x.name == r.name)).length) := by
  refine ⟨(count_names df.rows n) ▸ mem_validCompanies, rfl, ?_⟩
  unfold filterByNames
  rw [List.mem_filter]
  constructor
  · rintro ⟨hr, hv⟩
    refine ⟨hr, ?_⟩
    have : r.name ∈ validCompanies (df.rows.map Row.name) := by
      simpa [List.elem_iff] using hv
    rw [← count_names]
    exact mem_validCompanies.mp this
  · rintro ⟨hr, hc⟩
    refine ⟨hr, ?_⟩
    have : r.name ∈ validCompanies (df.rows.map Row.name) :=
      mem_validCompanies.mpr (by rw [count_names]; exact hc)
    simpa [List.elem_iff] using this

/-- C4: The fitted model depends only on the radio selection and is one
of exactly two regressors, `ExtraTreesRegressor(100, 42)` for
"Extra Trees" and `RandomForestRegressor(100, 42)` for
"Random Forest"; the ambient random state plays no part. -/
theorem C4_model_choice (choice : ModelChoice) (rng rng' : Nat) :
    (mkModel choice rng).n_estimators = 100 ∧
    (mkModel choice rng).random_state = 42 ∧
    (mkModel choice rng = ⟨.extraTreesRegressor, 100, 42⟩ ∨
      mkModel choice rng = ⟨.randomForestRegressor, 100, 42⟩) ∧
    (choice = .extraTrees ↔
      (mkModel choice rng).kind = .extraTreesRegressor) ∧
    (choice = .randomForest ↔
      (mkModel choice rng).kind = .randomForestRegressor) ∧
    mkModel choice rng = mkModel choice rng' := by
  cases choice <;> simp [mkModel, drawSeed]

/-- C5: A run's only file-system access is reading `data.parquet`: the
file table after the run equals the file table before it, the write log
is empty, and the read log is exactly the one load. -/
theorem C5_no_file_output (impl : RegressorImpl) (ambientRng : Nat)
    (files : List (String × DataFrame)) (selected : String)
    (choice : ModelChoice) :
    ((runApp impl ambientRng files selected choice).2.files = files) ∧
    ((runApp impl ambientRng files selected choice).2.writes = []) ∧
    ((runApp impl ambientRng files selected choice).2.reads =
      ["data.parquet"]) := by
  unfold runApp load_data read_parquet
  cases h : files.lookup "data.parquet" <;> simp [h]

/-- C6: The run is a deterministic function of the dataset, the
selected company, and the model choice: the ambient random state never
reaches the regressors, because both are constructed with
`random_state=42`. -/
theorem C6_deterministic (impl : RegressorImpl) (rng₁ rng₂ : Nat)
    (files : List (String × DataFrame)) (selected : String)
    (choice : ModelChoice) :
    runApp impl rng₁ files selected choice =
      runApp impl rng₂ files selected choice := by
  have h : ∀ ch : ModelChoice, mkModel ch rng₁ = mkModel ch rng₂ := by
    intro ch
    cases ch <;> rfl
  unfold runApp runLoaded
  rw [h choice]

/-- C3: There is no error handling: on any dataset missing one of the
required columns, the run propagates a library error and produces no
output at all — no metrics, no forecast, no charts. -/
theorem C3_missing_column_error (impl : RegressorImpl) (ambientRng : Nat)
    (files : List (String × DataFrame)) (selected : String)
    (choice : ModelChoice) (df : DataFrame) (c : String)
    (hfile : files.lookup "data.parquet" = some df)
    (hreq : c ∈ requiredColumns) (hmiss : df.cols.contains c = false) :
    ∃ e, (runApp impl ambientRng files selected choice).1 = .error e := by
  have hrl : ∃ e, runLoaded impl ambientRng df selected choice = .error e := by
    by_cases hn : df.cols.contains "name" = true
    · have hg : getNames df = .ok (df.rows.map Row.name) := by
        unfold getNames
        rw [if_pos hn]
      cases hfeat : features.find? (fun x => !df.cols.contains x) with
      | some d =>
        have hsc : selectCols df.cols (companyData df selected) features =
            .error ("KeyError: " ++ d) := by
          unfold selectCols
          rw [hfeat]
        exact ⟨"KeyError: " ++ d, by simp only [runLoaded, hg, hsc]⟩
      | none =>
        have hcl : c = "close" := by
          rcases requiredColumns_cases c hreq with h | h | h
          · rw [h] at hmiss
            rw [hn] at hmiss
            cases hmiss
          · exfalso
            have h2 : df.cols.contains c = true := by
              have h3 := List.find?_eq_none.mp hfeat c h
              simpa using h3
            rw [h2] at hmiss
            cases hmiss
          · exact h
        have hsc : selectCols df.cols (companyData df selected) features =
            .ok ((companyData df selected).map
              (fun r => features.map (fun x => getCellD r x))) := by
          unfold selectCols
          rw [hfeat]
        have hy : selectCol df.cols (companyData df selected) target =
            .error ("KeyError: " ++ target) := by
          rw [hcl] at hmiss
          have hm : "close" ∉ df.cols := by simpa using hmiss
          unfold selectCol
          rw [if_neg]
          simp [target, hm]
        exact ⟨"KeyError: " ++ target, by simp only [runLoaded, hg, hsc, hy]⟩
    · refine ⟨"KeyError: name", ?_⟩
      simp only [runLoaded, getNames]
      rw [if_neg hn]
  obtain ⟨e, he⟩ := hrl
  refine ⟨e, ?_⟩
  simp only [runApp, load_data, read_parquet, hfile, he]

/-- Witness for C3: a dataset without the `close` column makes the run
end in an error. -/
theorem C3_witness :
    "close" ∈ requiredColumns ∧
    sampleBadDF.cols.contains "close" = false ∧
    ∃ e, (runApp trivialImpl 0 [("data.parquet", sampleBadDF)] "ACME"
      .extraTrees).1 = .error e :=
  ⟨by decide, by decide,
    C3_missing_column_error trivialImpl 0 [("data.parquet", sampleBadDF)]
      "ACME" .extraTrees sampleBadDF "close" rfl (by decide) (by decide)⟩

/-- C7: For every valid selection (all required columns present, a
selectable company), the run succeeds and renders the four performance
metrics and the five chart views — candlestick, forecast, seasonal
decomposition, indicator overlay, moving averages — each exactly once,
in this order. -/
theorem C7_renders_all (impl : RegressorImpl) (ambientRng : Nat)
    (df : DataFrame) (selected : String) (choice : ModelChoice)
    (hcols : ∀ c ∈ requiredColumns, df.cols.contains c = true)
    (hsel : selected ∈ validCompanies (df.rows.map Row.name)) :
    ∃ out, runLoaded impl ambientRng df selected choice = .ok out ∧
      chartsOf out.renders =
        [.candlestick, .forecastPlot, .seasonal, .financialMetrics,
         .movingAverages] ∧
      metricsOf out.renders =
        [("Mean Absolute Error (MAE)", .rat out.mae),
         ("Root Mean Squared Error (RMSE)", .sqrtRat out.mse),
         ("R² Score", .rat out.r2),
         ("Estimated Accuracy", .rat out.accuracy)] := by
  refine ⟨runPure impl ambientRng df selected choice,
    runLoaded_eq impl ambientRng df selected choice hcols hsel, ?_, ?_⟩ <;>
    simp [runPure, chartsOf, metricsOf]

set_option maxRecDepth 100000 in
/-- Witness for C7 at the concrete 190-row dataset. -/
theorem C7_witness :
    ∃ out, runLoaded trivialImpl 0 sampleDF "ACME" .extraTrees = .ok out ∧
      chartsOf out.renders =
        [.candlestick, .forecastPlot, .seasonal, .financialMetrics,
         .movingAverages] ∧
      metricsOf out.renders =
        [("Mean Absolute Error (MAE)", .rat out.mae),
         ("Root Mean Squared Error (RMSE)", .sqrtRat out.mse),
         ("R² Score", .rat out.r2),
         ("Estimated Accuracy", .rat out.accuracy)] :=
  C7_renders_all trivialImpl 0 sampleDF "ACME" .extraTrees
    (by decide) (by decide)

/-- C8: The displayed 15-day forecast is the model's predictions on the
last 15 rows of the historical test feature set, rounded to two decimal
places and labelled Day 1 through Day 15; every feature row it is
computed from is an observed row of the company's feature matrix, none
is constructed or extrapolated. -/
theorem C8_forecast_last15 (impl : RegressorImpl) (ambientRng : Nat)
    (df : DataFrame) (selected : String) (choice : ModelChoice)
    (hcols : ∀ c ∈ requiredColumns, df.cols.contains c = true)
    (hsel : selected ∈ validCompanies (df.rows.map Row.name)) :
    ∃ out, runLoaded impl ambientRng df selected choice = .ok out ∧
      out.forecastTable = (List.range' 1 15).zip
        ((impl.fitPredict (mkModel choice ambientRng).kind
            (mkModel choice ambientRng).n_estimators
            (mkModel choice ambientRng).random_state
            (train_test_split (featureMatrix df selected)).1
            (train_test_split (targetVector df selected)).1
            (ilocLast 15 (train_test_split (featureMatrix df selected)).2)).map
          np_round2) ∧
      out.forecastTable.map Prod.fst = List.range' 1 15 ∧
      (∀ v ∈ ilocLast 15 (train_test_split (featureMatrix df selected)).2,
        v ∈ featureMatrix df selected) := by
  have hlen : 180 ≤ (companyData df selected).length := by
    rw [length_companyData df selected hsel]
    exact mem_validCompanies.mp hsel
  obtain ⟨h36X, h36Y, h15⟩ := split_lengths df selected hlen
  have hv15 : ((impl.fitPredict (mkModel choice ambientRng).kind
      (mkModel choice ambientRng).n_estimators
      (mkModel choice ambientRng).random_state
      (train_test_split (featureMatrix df selected)).1
      (train_test_split (targetVector df selected)).1
      (ilocLast 15 (train_test_split (featureMatrix df selected)).2)).map
        np_round2).length = 15 := by
    rw [List.length_map, impl.len_fitPredict, h15]
  refine ⟨runPure impl ambientRng df selected choice,
    runLoaded_eq impl ambientRng df selected choice hcols hsel, rfl, ?_, ?_⟩
  · simp only [runPure]
    rw [List.map_fst_zip _ _ (by simp [List.length_range', hv15])]
  · intro v hv
    unfold ilocLast train_test_split at hv
    exact List.mem_of_mem_drop (List.mem_of_mem_drop hv)

set_option maxRecDepth 100000 in
/-- Witness for C8 at the concrete 190-row dataset. -/
theorem C8_witness :
    ∃ out, runLoaded trivialImpl 0 sampleDF "ACME" .extraTrees = .ok out ∧
      out.forecastTable.map Prod.fst = List.range' 1 15 := by
  obtain ⟨out, h1, _, h3, _⟩ :=
    C8_forecast_last15 trivialImpl 0 sampleDF "ACME" .extraTrees
      (by decide) (by decide)
  exact ⟨out, h1, h3⟩

/-- C9: For every selectable company the test set has at least 36 rows
(`⌈n/5⌉ ≥ 36` for `n ≥ 180`), so the `iloc[-15:]` slice is always
fully populated and the forecast table has exactly 15 entries. -/
theorem C9_forecast_slice_full (impl : RegressorImpl) (ambientRng : Nat)
    (df : DataFrame) (selected : String) (choice : ModelChoice)
    (hcols : ∀ c ∈ requiredColumns, df.cols.contains c = true)
    (hsel : selected ∈ validCompanies (df.rows.map Row.name)) :
    180 ≤ (companyData df selected).length ∧
    36 ≤ (train_test_split (featureMatrix df selected)).2.length ∧
    (ilocLast 15 (train_test_split (featureMatrix df selected)).2).length
      = 15 ∧
    ∃ out, runLoaded impl ambientRng df selected choice = .ok out ∧
      out.forecastTable.length = 15 := by
  have hlen : 180 ≤ (companyData df selected).length := by
    rw [length_companyData df selected hsel]
    exact mem_validCompanies.mp hsel
  obtain ⟨h36X, h36Y, h15⟩ := split_lengths df selected hlen
  refine ⟨hlen, h36X, h15,
    runPure impl ambientRng df selected choice,
    runLoaded_eq impl ambientRng df selected choice hcols hsel, ?_⟩
  simp [runPure, List.length_zip, List.length_range', List.length_map,
    trivialImpl, RegressorImpl.len_fitPredict, impl.len_fitPredict, h15]

set_option maxRecDepth 100000 in
/-- Witness for C9 at the concrete 190-row dataset. -/
theorem C9_witness :
    36 ≤ (train_test_split (featureMatrix sampleDF "ACME")).2.length ∧
    ∃ out, runLoaded trivialImpl 0 sampleDF "ACME" .extraTrees = .ok out ∧
      out.forecastTable.length = 15 := by
  obtain ⟨_, h2, _, out, h4, h5⟩ :=
    C9_forecast_slice_full trivialImpl 0 sampleDF "ACME" .extraTrees
      (by decide) (by decide)
  exact ⟨h2, out, h4, h5⟩

/-- C10: The estimated accuracy displayed is `1 − MAE / mean(y_test)`,
meaningful under the (unguarded) precondition that the test-set mean is
nonzero; under that precondition the displayed RMSE is the real square
root of the MSE, so its square is the MSE (the MSE of the embedding is
nonnegative). -/
theorem C10_accuracy_formula (impl : RegressorImpl) (ambientRng : Nat)
    (df : DataFrame) (selected : String) (choice : ModelChoice)
    (hcols : ∀ c ∈ requiredColumns, df.cols.contains c = true)
    (hsel : selected ∈ validCompanies (df.rows.map Row.name))
    (hmean : listMean (train_test_split (targetVector df selected)).2 ≠ 0) :
    ∃ out, runLoaded impl ambientRng df selected choice = .ok out ∧
      out.y_test = (train_test_split (targetVector df selected)).2 ∧
      listMean out.y_test ≠ 0 ∧
      out.accuracy = 1 - out.mae / listMean out.y_test ∧
      out.mae = mean_absolute_error out.y_test out.y_pred ∧
      out.mse = mean_squared_error out.y_test out.y_pred ∧
      0 ≤ out.mse ∧
      Real.sqrt (out.mse : ℝ) ^ 2 = (out.mse : ℝ) := by
  refine ⟨runPure impl ambientRng df selected choice,
    runLoaded_eq impl ambientRng df selected choice hcols hsel,
    rfl, hmean, rfl, rfl, rfl, mean_squared_error_nonneg .., ?_⟩
  exact Real.sq_sqrt (by exact_mod_cast mean_squared_error_nonneg ..)

set_option maxRecDepth 100000 in
/-- Witness for C10 at the concrete 190-row dataset, whose test-set
closes are 36 copies of 10, of mean 10 ≠ 0. -/
theorem C10_witness :
    ∃ out, runLoaded trivialImpl 0 sampleDF "ACME" .extraTrees = .ok out ∧
      out.accuracy = 1 - out.mae / listMean out.y_test ∧
      Real.sqrt (out.mse : ℝ) ^ 2 = (out.mse : ℝ) := by
  have hm : listMean (train_test_split (targetVector sampleDF "ACME")).2 ≠ 0 := by
    have h : (train_test_split (targetVector sampleDF "ACME")).2 =
        List.replicate 36 (10 : ℚ) := by rfl
    rw [h]
    norm_num [listMean, List.sum_replicate]
  obtain ⟨out, h1, _, _, h4, _, _, _, h8⟩ :=
    C10_accuracy_formula trivialImpl 0 sampleDF "ACME" .extraTrees
      (by decide) (by decide) hm
  exact ⟨out, h1, h4, h8⟩

end StockApp
